import Mathlib

/-!
Verification of the `cg-set-wan-bfd.py` bulk WAN-BFD modification tool.

The program is shallowly embedded: pure helpers become Lean functions, the
side-effecting phases (`authenticate`, `go`, the final `logout`) become
functions from an explicit environment (the responses the controller would
give, the user's confirmation answer, per-interface PUT outcomes) to a list
of observable effects plus an outcome.  A Python `KeyError` (the unguarded
label lookup) is modelled by `Except.error` carrying the missing key.
-/

namespace CG

/-- Python `str.lower` applied characterwise to the character list of a
string, as used by `string_match` (`str(x).lower()`). -/
def lowerChars (s : String) : List Char :=
  s.data.map Char.toLower

/-- `begins hay pat` holds when `pat` is a prefix of `hay` (helper for the
Python substring test `pat in hay`). -/
def begins : List Char → List Char → Bool
  | _, [] => true
  | [], _ :: _ => false
  | c :: cs, p :: ps => c == p && begins cs ps

/-- `containsSub hay pat` is the Python substring containment test
`pat in hay` on character lists. -/
def containsSub : List Char → List Char → Bool
  | [], pat => pat.isEmpty
  | c :: cs, pat => begins (c :: cs) pat || containsSub cs pat

/-- `string_match` (src lines 75-78): case-insensitive substring test,
`str(match).lower() in str(string).lower()`. -/
def string_match (s m : String) : Bool :=
  containsSub (lowerChars s) (lowerChars m)

/-! ## Data model (src §: the JSON payloads the script reads and writes) -/

/-- One element of the `waninterfacelabels` response (`items`), src 155-159. -/
structure LabelItem where
  id : String
  name : String
  label : String
  description : String
deriving DecidableEq

/-- The value stored in `wan_label_dict[label.id]`, src 156-159. -/
structure LabelMeta where
  name : String
  label : String
  description : String
deriving DecidableEq

/-- One element of the `sites` response (`items`), src 163-167. -/
structure Site where
  id : String
  name : String
  element_cluster_role : String
deriving DecidableEq

/-- One element of a `waninterfaces` response: the fields of the payload the
script reads or writes (src 173-184, 197-225). -/
structure Interface where
  id : String
  name : String
  label_id : String
  bfd_mode : String
  lqm_enabled : String
  bw_config_mode : String
deriving DecidableEq

/-- One entry of `matched_wan_labels` (src 174-176): keyed by interface id,
holding the owning site id and the full interface payload. -/
structure MatchRecord where
  interface_id : String
  site_id : String
  data : Interface
deriving DecidableEq

/-- Observable effects of a run: remote calls and the prints the claims talk
about.  `print` calls that carry the information a claim mentions are kept as
distinct constructors; purely cosmetic prints are dropped. -/
inductive Effect where
  | getTenants
  | printTenant (name : String)
  | getLabels
  | getSites
  | getWanInterfaces (siteId : String)
  | foundMatch (siteName circuitName labelName labelLabel labelDescription
      bfd lqm bwm : String)
  | promptConfirm (prompt : String)
  | printAborted
  | changingLog (siteId oldBfd newBfd : String)
  | lqmLog (oldLqm requested : String)
  | bwmLog (oldBwm requested : String)
  | ignoreBwmLog (bwMode : String)
  | putWanInterface (siteId interfaceId : String) (payload : Interface)
  | putSuccessMsg (bfd : String)
  | putFailedMsg
  | logoutEff
  | readTokenFile (fileName : String)
  | authMsgCli
  | authMsgFile (fileName : String)
  | authMsgEnvX
  | authMsgEnvA
  | authMsgInteractive
  | useTokenEff (tok : String)
  | interactiveLoginEff
  | authFailMsg
  | authSuccessMsg
deriving DecidableEq

instance {ε α : Type} [DecidableEq ε] [DecidableEq α] :
    DecidableEq (Except ε α)
  | Except.error x, Except.error y =>
    decidable_of_iff (x = y) (by simp)
  | Except.error _, Except.ok _ => isFalse (by simp)
  | Except.ok _, Except.error _ => isFalse (by simp)
  | Except.ok x, Except.ok y =>
    decidable_of_iff (x = y) (by simp)

/-- Module-level global `exclude_hub_sites = True` (src 49). -/
def exclude_hub_sites : Bool := true

/-- Module-level global `match_on = "CIRCUIT_NAME"` (src 50). -/
def match_on : String := "CIRCUIT_NAME"

/-! ## Per-interface patch computation (src 197-225) -/

/-- `current_bwm_state` derivation, src 208-212: start at `"unknown"`, then
`"manual_bwm_disabled"` maps to `"Off"`, else `"manual"` maps to `"On"`. -/
def bwmStateOf (bw_config_mode : String) : String :=
  if bw_config_mode = "manual_bwm_disabled" then "Off"
  else if bw_config_mode = "manual" then "On"
  else "unknown"

/-- The data part of the per-interface mutation, src 197-225: set `bfd_mode`
(197); set `lqm_enabled` on lqm on/off (202-207); compute the BWM state
(208-212); on `bwm == "on"` set `bw_config_mode` to `"manual"` unless the
state is unknown (214-219); on `bwm == "off" and state != "unknown"` set it
to `"manual_bwm_disabled"` unless the state is unknown (220-225). -/
def patchData (bfdmode change_lqm change_bwm : String) (d0 : Interface) :
    Interface :=
  let d1 := { d0 with bfd_mode := bfdmode }
  let d2 := if change_lqm = "on" then { d1 with lqm_enabled := "true" } else d1
  let d3 := if change_lqm = "off" then { d2 with lqm_enabled := "false" } else d2
  let st := bwmStateOf d3.bw_config_mode
  let d4 :=
    if change_bwm = "on" then
      if st = "unknown" then d3 else { d3 with bw_config_mode := "manual" }
    else d3
  let d5 :=
    if change_bwm = "off" ∧ st ≠ "unknown" then
      if st = "unknown" then d4
      else { d4 with bw_config_mode := "manual_bwm_disabled" }
    else d4
  d5

/-- The prints of the per-interface mutation, src 202-225, in order.  The
interface values referenced by each print are those current at the time of
the print, threaded exactly as `put_data` is mutated in the source. -/
def patchLogs (bfdmode change_lqm change_bwm : String) (d0 : Interface) :
    List Effect :=
  let d1 := { d0 with bfd_mode := bfdmode }
  let l1 := if change_lqm = "on" then [Effect.lqmLog d1.lqm_enabled change_lqm] else []
  let d2 := if change_lqm = "on" then { d1 with lqm_enabled := "true" } else d1
  let l2 := if change_lqm = "off" then [Effect.lqmLog d2.lqm_enabled change_lqm] else []
  let d3 := if change_lqm = "off" then { d2 with lqm_enabled := "false" } else d2
  let st := bwmStateOf d3.bw_config_mode
  let l3 :=
    if change_bwm = "on" then
      if st = "unknown" then [Effect.ignoreBwmLog d3.bw_config_mode]
      else [Effect.bwmLog d3.bw_config_mode change_bwm]
    else []
  let d4 :=
    if change_bwm = "on" then
      if st = "unknown" then d3 else { d3 with bw_config_mode := "manual" }
    else d3
  let l4 :=
    if change_bwm = "off" ∧ st ≠ "unknown" then
      if st = "unknown" then [Effect.ignoreBwmLog d4.bw_config_mode]
      else [Effect.bwmLog d4.bw_config_mode change_bwm]
    else []
  l1 ++ l2 ++ l3 ++ l4

/-- One pass of the mutation loop body (src 195-232) for one matched record:
the "changing to" print (196), the per-field patch prints, the PUT of the
full patched payload (227), and the success/failure report (228-231). -/
def mutateOne (bfdmode change_lqm change_bwm : String)
    (putOk : String → Bool) (r : MatchRecord) : List Effect :=
  Effect.changingLog r.site_id r.data.bfd_mode bfdmode ::
    (patchLogs bfdmode change_lqm change_bwm r.data ++
      [Effect.putWanInterface r.site_id r.interface_id
          (patchData bfdmode change_lqm change_bwm r.data),
        if putOk r.interface_id then Effect.putSuccessMsg bfdmode
        else Effect.putFailedMsg])

/-- The whole mutation loop (src 195-232) over the matched records in
accumulation order. -/
def mutatePhase (bfdmode change_lqm change_bwm : String)
    (putOk : String → Bool) : List MatchRecord → List Effect
  | [] => []
  | r :: rest =>
    mutateOne bfdmode change_lqm change_bwm putOk r ++
      mutatePhase bfdmode change_lqm change_bwm putOk rest

/-! ## Discovery (src 136-192) -/

/-- `wan_label_dict` built by repeated dict assignment over the label items
(src 151-159); a later item with the same id overwrites an earlier one. -/
def buildLabelDict (items : List LabelItem) : String → Option LabelMeta :=
  items.foldl
    (fun d it k =>
      if k = it.id then some ⟨it.name, it.label, it.description⟩ else d k)
    (fun _ => none)

/-- The environment of one run: the controller's responses, the user's
confirmation answer and the per-interface PUT outcomes. -/
structure Env where
  tenantOk : Bool
  tenantName : String
  labelsOk : Bool
  labelItems : List LabelItem
  sitesOk : Bool
  siteItems : List Site
  wanOk : String → Bool
  wanItems : String → List Interface
  confirm : Bool
  putOk : String → Bool

/-- The inner interface loop of discovery (src 171-186): for each interface
whose circuit name matches, record it and print the summary; the three label
prints (179-181) index `wan_label_dict[interface.label_id]` with no guard, so
a missing id raises `KeyError`, modelled as `Except.error` with that id. -/
def scanInterfaces (match_text : String) (ld : String → Option LabelMeta)
    (site : Site) : List Interface →
    Except String (List Effect × List MatchRecord)
  | [] => Except.ok ([], [])
  | i :: rest =>
    if match_on = "CIRCUIT_NAME" then
      if string_match i.name match_text then
        match ld i.label_id with
        | none => Except.error i.label_id
        | some meta =>
          match scanInterfaces match_text ld site rest with
          | Except.error e => Except.error e
          | Except.ok (es, ms) =>
            Except.ok
              (Effect.foundMatch site.name i.name meta.name meta.label
                  meta.description i.bfd_mode i.lqm_enabled i.bw_config_mode
                :: es,
                ⟨i.id, site.id, i⟩ :: ms)
      else scanInterfaces match_text ld site rest
    else scanInterfaces match_text ld site rest

/-- The site loop of discovery (src 164-186): a site's WAN interfaces are
fetched only when `exclude_hub_sites and role != "HUB"` (167); when the
fetch response is falsy the site contributes nothing further (169). -/
def discoverSites (match_text : String) (excl : Bool)
    (ld : String → Option LabelMeta) (wanOk : String → Bool)
    (wanItems : String → List Interface) : List Site →
    Except String (List Effect × List MatchRecord)
  | [] => Except.ok ([], [])
  | s :: rest =>
    if excl ∧ s.element_cluster_role ≠ "HUB" then
      if wanOk s.id then
        match scanInterfaces match_text ld s (wanItems s.id) with
        | Except.error e => Except.error e
        | Except.ok (es1, ms1) =>
          match discoverSites match_text excl ld wanOk wanItems rest with
          | Except.error e => Except.error e
          | Except.ok (es2, ms2) =>
            Except.ok
              (Effect.getWanInterfaces s.id :: (es1 ++ es2), ms1 ++ ms2)
      else
        match discoverSites match_text excl ld wanOk wanItems rest with
        | Except.error e => Except.error e
        | Except.ok (es2, ms2) =>
          Except.ok (Effect.getWanInterfaces s.id :: es2, ms2)
    else discoverSites match_text excl ld wanOk wanItems rest

/-- `addended_prompt` (src 187-189). -/
def addendedPrompt (change_lqm change_bwm : String) : String :=
  (if change_lqm ≠ "nochange" then ", change LQM," else "") ++
    (if change_bwm ≠ "nochange" then ", change BWM," else "")

/-- How one invocation of `go` ended: normal return, or `sys.exit` after the
tenant call failed (141-144) or the sites call failed (235-238). -/
inductive RunExit where
  | normal
  | tenantError
  | siteError
deriving DecidableEq

/-- `go()` (src 129-238) as a function from the run environment to the
effect trace and how the call ended.  An uncaught `KeyError` from the label
display propagates as `Except.error`. -/
def goEffects (bfdmode match_text change_lqm change_bwm : String)
    (excl : Bool) (env : Env) :
    Except String (List Effect × RunExit) :=
  if env.tenantOk then
    let pre := [Effect.getTenants, Effect.printTenant env.tenantName,
      Effect.getLabels]
    let ld := if env.labelsOk then buildLabelDict env.labelItems
      else fun _ => none
    if env.sitesOk then
      match discoverSites match_text excl ld env.wanOk env.wanItems
          env.siteItems with
      | Except.error e => Except.error e
      | Except.ok (des, matched) =>
        let prompt :=
          "This will change all circuits found above to a BFD Mode of "
            ++ bfdmode ++ addendedPrompt change_lqm change_bwm
            ++ " are you sure"
        if env.confirm then
          Except.ok
            (pre ++ [Effect.getSites] ++ des ++
              [Effect.promptConfirm prompt] ++
              mutatePhase bfdmode change_lqm change_bwm env.putOk matched,
              RunExit.normal)
        else
          Except.ok
            (pre ++ [Effect.getSites] ++ des ++
              [Effect.promptConfirm prompt, Effect.printAborted],
              RunExit.normal)
    else
      Except.ok (pre ++ [Effect.getSites, Effect.logoutEff],
        RunExit.siteError)
  else
    Except.ok ([Effect.getTenants, Effect.logoutEff], RunExit.tenantError)

/-- `go(); logout()` — the tail of `__main__` (src 247-248): the final
`logout()` runs only when `go` returns normally (a `sys.exit` inside `go`
has already logged out itself, src 141/236). -/
def runAfterAuth (bfdmode match_text change_lqm change_bwm : String)
    (excl : Bool) (env : Env) : Except String (List Effect) :=
  match goEffects bfdmode match_text change_lqm change_bwm excl env with
  | Except.error e => Except.error e
  | Except.ok (es, RunExit.normal) => Except.ok (es ++ [Effect.logoutEff])
  | Except.ok (es, RunExit.tenantError) => Except.ok es
  | Except.ok (es, RunExit.siteError) => Except.ok es

/-! ## Authentication (src 92-127) -/

/-- Python truthiness of a maybe-absent string (`None` and `""` are falsy),
as used by `if CLIARGS['token']:` and `if CLOUDGENIX_AUTH_TOKEN:`. -/
def pyTruthy : Option String → Bool
  | none => false
  | some s => !(s == "")

/-- The credential-resolution chain, src 98-113: CLI token (truthy), then
token file (truthy file-name argument; the file is read and stripped), then
`X_AUTH_TOKEN` present in the environment, then `AUTH_TOKEN` present, else
no token (interactive).  Environment variables are selected by presence
(`in os.environ`), so an empty value is still selected. -/
def resolveAuthToken (cliToken authtokenfile : Option String)
    (fileContents : String → String) (envX envA : Option String) :
    Option String × List Effect :=
  if pyTruthy cliToken then (cliToken, [Effect.authMsgCli])
  else if pyTruthy authtokenfile then
    (some ((fileContents (authtokenfile.getD "")).trim),
      [Effect.readTokenFile (authtokenfile.getD ""),
        Effect.authMsgFile (authtokenfile.getD "")])
  else if envX.isSome then (envX, [Effect.authMsgEnvX])
  else if envA.isSome then (envA, [Effect.authMsgEnvA])
  else (none, [Effect.authMsgInteractive])

/-- How `authenticate()` ended: `sys.exit()` with its status code (src 119 —
no argument, so the status is 0), success, or still inside the interactive
loop at the end of the observed attempt outcomes. -/
inductive AuthOutcome where
  | exited (code : Nat)
  | authOk
  | looping
deriving DecidableEq

/-- The interactive login loop (src 121-126), observed along a finite list
of per-attempt outcomes: one `login` call per attempt, stopping at the first
success; an exhausted list means the loop is still running. -/
def interactiveLoop : List Bool → List Effect × Bool
  | [] => ([], false)
  | r :: rest =>
    if r then ([Effect.interactiveLoginEff], true)
    else
      let (es, b) := interactiveLoop rest
      (Effect.interactiveLoginEff :: es, b)

/-- `authenticate()` (src 92-127): resolve the token; if it is truthy, one
`use_token` attempt — on failure print the error and `sys.exit()` (status
0); otherwise the interactive loop.  Success prints the completion line. -/
def authenticate (cliToken authtokenfile : Option String)
    (fileContents : String → String) (envX envA : Option String)
    (tokenValid : String → Bool) (loginResults : List Bool) :
    List Effect × AuthOutcome :=
  let r := resolveAuthToken cliToken authtokenfile fileContents envX envA
  if pyTruthy r.1 then
    let t := r.1.getD ""
    if tokenValid t then
      (r.2 ++ [Effect.useTokenEff t, Effect.authSuccessMsg],
        AuthOutcome.authOk)
    else
      (r.2 ++ [Effect.useTokenEff t, Effect.authFailMsg],
        AuthOutcome.exited 0)
  else
    let p := interactiveLoop loginResults
    if p.2 then (r.2 ++ p.1 ++ [Effect.authSuccessMsg], AuthOutcome.authOk)
    else (r.2 ++ p.1, AuthOutcome.looping)

/-- How a whole run ended. -/
inductive MainOutcome where
  | authExit (code : Nat)
  | authLoop
  | ran (x : RunExit)
deriving DecidableEq

/-- `__main__` (src 244-248) after argument parsing: `authenticate()`, then
`go()`, then the final `logout()`. -/
def mainRun (cliToken authtokenfile : Option String)
    (fileContents : String → String) (envX envA : Option String)
    (tokenValid : String → Bool) (loginResults : List Bool)
    (bfdmode match_text change_lqm change_bwm : String) (excl : Bool)
    (env : Env) : Except String (List Effect × MainOutcome) :=
  let a := authenticate cliToken authtokenfile fileContents envX envA
    tokenValid loginResults
  match a.2 with
  | AuthOutcome.exited c => Except.ok (a.1, MainOutcome.authExit c)
  | AuthOutcome.looping => Except.ok (a.1, MainOutcome.authLoop)
  | AuthOutcome.authOk =>
    match goEffects bfdmode match_text change_lqm change_bwm excl env with
    | Except.error e => Except.error e
    | Except.ok (ges, RunExit.normal) =>
      Except.ok (a.1 ++ ges ++ [Effect.logoutEff],
        MainOutcome.ran RunExit.normal)
    | Except.ok (ges, x) => Except.ok (a.1 ++ ges, MainOutcome.ran x)

/-- Effect classification: is this effect a `put.waninterfaces` call? -/
def isPut : Effect → Bool
  | Effect.putWanInterface _ _ _ => true
  | _ => false

/-- Effect classification: is this effect a per-item success/failure report
(src 229/231)? -/
def isReport : Effect → Bool
  | Effect.putSuccessMsg _ => true
  | Effect.putFailedMsg => true
  | _ => false

/-! ## Helper lemmas -/

theorem begins_iff (pat hay : List Char) :
    begins hay pat = true ↔ ∃ rest, hay = pat ++ rest := by
  induction pat generalizing hay with
  | nil =>
    simp [begins]
  | cons p ps ih =>
    cases hay with
    | nil =>
      simp [begins]
    | cons c cs =>
      simp only [begins, Bool.and_eq_true, beq_iff_eq, ih, List.cons_append,
        List.cons.injEq]
      constructor
      · rintro ⟨hc, rest, hrest⟩
        exact ⟨rest, hc, hrest⟩
      · rintro ⟨rest, hc, hrest⟩
        exact ⟨hc, rest, hrest⟩

theorem containsSub_iff (hay pat : List Char) :
    containsSub hay pat = true ↔ ∃ pre post, hay = pre ++ pat ++ post := by
  induction hay with
  | nil =>
    simp only [containsSub, List.isEmpty_iff]
    constructor
    · rintro rfl
      exact ⟨[], [], rfl⟩
    · rintro ⟨pre, post, h⟩
      rcases List.append_eq_nil.mp (List.append_eq_nil.mp h.symm).1 with ⟨-, h2⟩
      exact h2
  | cons c cs ih =>
    simp only [containsSub, Bool.or_eq_true, begins_iff, ih]
    constructor
    · rintro (⟨rest, hrest⟩ | ⟨pre, post, h⟩)
      · exact ⟨[], rest, by simpa using hrest⟩
      · exact ⟨c :: pre, post, by simp [h]⟩
    · rintro ⟨pre, post, h⟩
      cases pre with
      | nil =>
        exact Or.inl ⟨post, by simpa using h⟩
      | cons p ps =>
        simp only [List.cons_append, List.cons.injEq] at h
        exact Or.inr ⟨ps, post, h.2⟩

theorem patchData_bw_eq (b l w : String) (d : Interface) :
    (patchData b l w d).bw_config_mode =
      if w = "on" ∧ bwmStateOf d.bw_config_mode ≠ "unknown" then "manual"
      else if w = "off" ∧ bwmStateOf d.bw_config_mode ≠ "unknown" then
        "manual_bwm_disabled"
      else d.bw_config_mode := by
  cases d
  simp only [patchData]
  split_ifs <;> simp_all

theorem patchData_bfd_eq (b l w : String) (d : Interface) :
    (patchData b l w d).bfd_mode = b := by
  cases d
  simp only [patchData]
  split_ifs <;> simp_all

theorem patchData_lqm_eq (b l w : String) (d : Interface) :
    (patchData b l w d).lqm_enabled =
      if l = "off" then "false"
      else if l = "on" then "true"
      else d.lqm_enabled := by
  cases d
  simp only [patchData]
  split_ifs <;> simp_all

theorem patchData_other_eq (b l w : String) (d : Interface) :
    (patchData b l w d).id = d.id ∧ (patchData b l w d).name = d.name ∧
      (patchData b l w d).label_id = d.label_id := by
  cases d
  simp only [patchData]
  split_ifs <;> simp_all

theorem interface_eq_of_fields (a b : Interface) (h1 : a.id = b.id)
    (h2 : a.name = b.name) (h3 : a.label_id = b.label_id)
    (h4 : a.bfd_mode = b.bfd_mode) (h5 : a.lqm_enabled = b.lqm_enabled)
    (h6 : a.bw_config_mode = b.bw_config_mode) : a = b := by
  cases a
  cases b
  simp_all

theorem patchLogs_filter_put (b l w : String) (d : Interface) :
    (patchLogs b l w d).filter isPut = [] := by
  cases d
  simp only [patchLogs]
  split_ifs <;> simp [isPut]

theorem patchLogs_filter_report (b l w : String) (d : Interface) :
    (patchLogs b l w d).filter isReport = [] := by
  cases d
  simp only [patchLogs]
  split_ifs <;> simp [isReport]

theorem match_on_is : match_on = "CIRCUIT_NAME" := rfl

theorem scanInterfaces_effects (mt : String) (ld : String → Option LabelMeta)
    (site : Site) :
    ∀ (l : List Interface) (es : List Effect) (ms : List MatchRecord),
      scanInterfaces mt ld site l = Except.ok (es, ms) →
      ∀ e ∈ es, ∃ sn cn ln ll dsc bf lq bw,
        e = Effect.foundMatch sn cn ln ll dsc bf lq bw := by
  intro l
  induction l with
  | nil =>
    intro es ms h e he
    simp only [scanInterfaces, Except.ok.injEq, Prod.mk.injEq] at h
    rw [← h.1] at he
    simp at he
  | cons i rest ih =>
    intro es ms h e he
    rw [scanInterfaces, if_pos match_on_is] at h
    by_cases hm : string_match i.name mt = true
    · rw [if_pos hm] at h
      cases hld : ld i.label_id with
      | none =>
        rw [hld] at h
        simp at h
      | some meta =>
        rw [hld] at h
        cases hrec : scanInterfaces mt ld site rest with
        | error e2 =>
          rw [hrec] at h
          simp at h
        | ok p =>
          rw [hrec] at h
          cases p with
          | mk es2 ms2 =>
            simp only [Except.ok.injEq, Prod.mk.injEq] at h
            rw [← h.1] at he
            rcases List.mem_cons.mp he with h1 | h2
            · exact ⟨site.name, i.name, meta.name, meta.label,
                meta.description, i.bfd_mode, i.lqm_enabled,
                i.bw_config_mode, h1⟩
            · exact ih es2 ms2 hrec e h2
    · rw [if_neg hm] at h
      exact ih es ms h e he

theorem discoverSites_getWan_iff (mt : String) (excl : Bool)
    (ld : String → Option LabelMeta) (wanOk : String → Bool)
    (wanItems : String → List Interface) :
    ∀ (sites : List Site) (es : List Effect) (ms : List MatchRecord),
      discoverSites mt excl ld wanOk wanItems sites = Except.ok (es, ms) →
      ∀ sid, (Effect.getWanInterfaces sid ∈ es ↔
        ∃ s, s ∈ sites ∧ s.id = sid ∧ excl = true ∧
          s.element_cluster_role ≠ "HUB") := by
  intro sites
  induction sites with
  | nil =>
    intro es ms h sid
    simp only [discoverSites, Except.ok.injEq, Prod.mk.injEq] at h
    rw [← h.1]
    simp
  | cons s rest ih =>
    intro es ms h sid
    rw [discoverSites] at h
    by_cases hg : excl = true ∧ s.element_cluster_role ≠ "HUB"
    · rw [if_pos hg] at h
      by_cases hw : wanOk s.id = true
      · rw [if_pos hw] at h
        cases hscan : scanInterfaces mt ld s (wanItems s.id) with
        | error e2 =>
          rw [hscan] at h
          simp at h
        | ok p1 =>
          rw [hscan] at h
          cases p1 with
          | mk es1 ms1 =>
            cases hrec : discoverSites mt excl ld wanOk wanItems rest with
            | error e2 =>
              rw [hrec] at h
              simp at h
            | ok p2 =>
              rw [hrec] at h
              cases p2 with
              | mk es2 ms2 =>
                simp only [Except.ok.injEq, Prod.mk.injEq] at h
                rw [← h.1]
                simp only [List.mem_cons, List.mem_append,
                  Effect.getWanInterfaces.injEq, ih es2 ms2 hrec sid]
                constructor
                · rintro (h1 | h2 | h3)
                  · exact ⟨s, Or.inl rfl, h1.symm, hg.1, hg.2⟩
                  · rcases scanInterfaces_effects mt ld s (wanItems s.id)
                      es1 ms1 hscan _ h2 with ⟨_, _, _, _, _, _, _, _, hfm⟩
                    cases hfm
                  · rcases h3 with ⟨t, ht, h4⟩
                    exact ⟨t, Or.inr ht, h4⟩
                · rintro ⟨t, hts, h4⟩
                  rcases hts with rfl | htr
                  · exact Or.inl h4.1.symm
                  · exact Or.inr (Or.inr ⟨t, htr, h4⟩)
      · rw [if_neg hw] at h
        cases hrec : discoverSites mt excl ld wanOk wanItems rest with
        | error e2 =>
          rw [hrec] at h
          simp at h
        | ok p2 =>
          rw [hrec] at h
          cases p2 with
          | mk es2 ms2 =>
            simp only [Except.ok.injEq, Prod.mk.injEq] at h
            rw [← h.1]
            simp only [List.mem_cons, Effect.getWanInterfaces.injEq,
              ih es2 ms2 hrec sid]
            constructor
            · rintro (h1 | h3)
              · exact ⟨s, Or.inl rfl, h1.symm, hg.1, hg.2⟩
              · rcases h3 with ⟨t, ht, h4⟩
                exact ⟨t, Or.inr ht, h4⟩
            · rintro ⟨t, hts, h4⟩
              rcases hts with rfl | htr
              · exact Or.inl h4.1.symm
              · exact Or.inr ⟨t, htr, h4⟩
    · rw [if_neg hg] at h
      rw [ih es ms h sid]
      constructor
      · rintro ⟨t, ht, h4⟩
        exact ⟨t, List.mem_cons_of_mem s ht, h4⟩
      · rintro ⟨t, hts, h4⟩
        rcases List.mem_cons.mp hts with rfl | htr
        · exact absurd ⟨h4.2.1, h4.2.2⟩ hg
        · exact ⟨t, htr, h4⟩

theorem discoverSites_no_put (mt : String) (excl : Bool)
    (ld : String → Option LabelMeta) (wanOk : String → Bool)
    (wanItems : String → List Interface) :
    ∀ (sites : List Site) (es : List Effect) (ms : List MatchRecord),
      discoverSites mt excl ld wanOk wanItems sites = Except.ok (es, ms) →
      ∀ e ∈ es, isPut e = false := by
  intro sites
  induction sites with
  | nil =>
    intro es ms h e he
    simp only [discoverSites, Except.ok.injEq, Prod.mk.injEq] at h
    rw [← h.1] at he
    simp at he
  | cons s rest ih =>
    intro es ms h e he
    rw [discoverSites] at h
    by_cases hg : excl = true ∧ s.element_cluster_role ≠ "HUB"
    · rw [if_pos hg] at h
      by_cases hw : wanOk s.id = true
      · rw [if_pos hw] at h
        cases hscan : scanInterfaces mt ld s (wanItems s.id) with
        | error e2 =>
          rw [hscan] at h
          simp at h
        | ok p1 =>
          obtain ⟨es1, ms1⟩ := p1
          rw [hscan] at h
          cases hrec : discoverSites mt excl ld wanOk wanItems rest with
          | error e2 =>
            rw [hrec] at h
            simp at h
          | ok p2 =>
            obtain ⟨es2, ms2⟩ := p2
            rw [hrec] at h
            simp only [Except.ok.injEq, Prod.mk.injEq] at h
            rw [← h.1] at he
            rcases List.mem_cons.mp he with rfl | hmem
            · rfl
            · rcases List.mem_append.mp hmem with h1 | h2
              · rcases scanInterfaces_effects mt ld s (wanItems s.id) es1
                  ms1 hscan e h1 with ⟨_, _, _, _, _, _, _, _, rfl⟩
                rfl
              · exact ih es2 ms2 hrec e h2
      · rw [if_neg hw] at h
        cases hrec : discoverSites mt excl ld wanOk wanItems rest with
        | error e2 =>
          rw [hrec] at h
          simp at h
        | ok p2 =>
          obtain ⟨es2, ms2⟩ := p2
          rw [hrec] at h
          simp only [Except.ok.injEq, Prod.mk.injEq] at h
          rw [← h.1] at he
          rcases List.mem_cons.mp he with rfl | hmem
          · rfl
          · exact ih es2 ms2 hrec e hmem
    · rw [if_neg hg] at h
      exact ih es ms h e he

theorem discoverSites_excl_false (mt : String)
    (ld : String → Option LabelMeta) (wanOk : String → Bool)
    (wanItems : String → List Interface) :
    ∀ sites, discoverSites mt false ld wanOk wanItems sites
      = Except.ok ([], []) := by
  intro sites
  induction sites with
  | nil => rfl
  | cons s rest ih =>
    rw [discoverSites, if_neg, ih]
    rintro ⟨h1, -⟩
    exact Bool.false_ne_true h1

theorem resolveAuthToken_effects (cliToken authtokenfile : Option String)
    (fileContents : String → String) (envX envA : Option String) :
    ∀ e ∈ (resolveAuthToken cliToken authtokenfile fileContents envX envA).2,
      (∀ t, e ≠ Effect.useTokenEff t) ∧ e ≠ Effect.interactiveLoginEff ∧
        e ≠ Effect.getTenants := by
  intro e he
  unfold resolveAuthToken at he
  split_ifs at he
  · simp only [List.mem_cons, List.not_mem_nil, or_false] at he
    subst he
    simp
  · simp only [List.mem_cons, List.not_mem_nil, or_false] at he
    rcases he with rfl | rfl <;> simp
  · simp only [List.mem_cons, List.not_mem_nil, or_false] at he
    subst he
    simp
  · simp only [List.mem_cons, List.not_mem_nil, or_false] at he
    subst he
    simp
  · simp only [List.mem_cons, List.not_mem_nil, or_false] at he
    subst he
    simp

theorem interactiveLoop_effects :
    ∀ (lr : List Bool), ∀ e ∈ (interactiveLoop lr).1,
      e = Effect.interactiveLoginEff := by
  intro lr
  induction lr with
  | nil =>
    intro e he
    simp [interactiveLoop] at he
  | cons r rest ih =>
    intro e he
    rw [interactiveLoop] at he
    by_cases hr : r = true
    · rw [if_pos hr] at he
      simp only [List.mem_cons, List.not_mem_nil, or_false] at he
      exact he
    · rw [if_neg hr] at he
      rcases List.mem_cons.mp he with rfl | hmem
      · rfl
      · exact ih e hmem

/-! ## Claims -/

/-- C1: for every pair of strings `s` and `m`, `string_match s m` is true iff
the lowercase form of `m` is a contiguous substring of the lowercase form of
`s`; and changing the case of any characters of `s` or `m` (any `s2`, `m2`
with the same lowercase forms) never changes the result. -/
theorem C1_string_match_spec (s m s2 m2 : String)
    (hs : lowerChars s2 = lowerChars s) (hm : lowerChars m2 = lowerChars m) :
    (string_match s m = true ↔
      ∃ pre post, lowerChars s = pre ++ lowerChars m ++ post)
    ∧ string_match s2 m2 = string_match s m := by
  constructor
  · simpa [string_match] using containsSub_iff (lowerChars s) (lowerChars m)
  · simp [string_match, hs, hm]

/-- Witness for C1 at concrete inputs: `"lte"` is found case-insensitively
in `"LTE-Primary"`, and recasing both strings leaves the result unchanged. -/
theorem C1_string_match_spec_witness :
    (string_match "LTE-Primary" "lte" = true ↔
      ∃ pre post, lowerChars "LTE-Primary" = pre ++ lowerChars "lte" ++ post)
    ∧ string_match "lte-PRIMARY" "LTE" = string_match "LTE-Primary" "lte" :=
  C1_string_match_spec "LTE-Primary" "lte" "lte-PRIMARY" "LTE" (by decide)
    (by decide)

/-- C2 counterexample: with `exclude_hub_sites = false`, a non-HUB site
holding a circuit that matches the match text is NOT considered — its WAN
interfaces are never fetched (no fetch effect) and nothing is matched —
refuting "when exclude_hub_sites is false, every site is considered
regardless of its cluster role" (the guard on src 167 is
`exclude_hub_sites and role != "HUB"`, false whenever the flag is false). -/
theorem C2_cex_flag_false_skips_all_sites :
    discoverSites "lte" false (fun _ => none) (fun _ => true)
      (fun _ => [⟨"wi1", "LTE-Primary", "L1", "aggressive", "true", "manual"⟩])
      [⟨"s1", "SiteOne", "BRANCH"⟩] = Except.ok ([], []) := by
  decide

/-- C2 amended: a site's WAN interfaces are fetched and considered for
matching exactly when `exclude_hub_sites` is true and the site's cluster
role is not `"HUB"`; when `exclude_hub_sites` is false, no site is
considered at all (nothing is fetched and nothing matches). -/
theorem C2_amended_sites_considered (mt : String) (excl : Bool)
    (ld : String → Option LabelMeta) (wanOk : String → Bool)
    (wanItems : String → List Interface) (sites : List Site)
    (es : List Effect) (ms : List MatchRecord)
    (h : discoverSites mt excl ld wanOk wanItems sites = Except.ok (es, ms))
    (sid : String) :
    (Effect.getWanInterfaces sid ∈ es ↔
      ∃ s, s ∈ sites ∧ s.id = sid ∧ excl = true ∧
        s.element_cluster_role ≠ "HUB")
    ∧ (excl = false → es = [] ∧ ms = []) := by
  constructor
  · exact discoverSites_getWan_iff mt excl ld wanOk wanItems sites es ms h sid
  · rintro rfl
    rw [discoverSites_excl_false mt ld wanOk wanItems sites] at h
    simp only [Except.ok.injEq, Prod.mk.injEq] at h
    exact ⟨h.1.symm, h.2.symm⟩

/-- Witness for C2 (amended) at a concrete run: a single HUB site with
`exclude_hub_sites = true` — its interfaces are never fetched, and indeed no
site in the list passes the guard. -/
theorem C2_amended_sites_considered_witness :
    (Effect.getWanInterfaces "s1" ∈ ([] : List Effect) ↔
      ∃ s, s ∈ [(⟨"s1", "HubSite", "HUB"⟩ : Site)] ∧ s.id = "s1" ∧
        true = true ∧ s.element_cluster_role ≠ "HUB")
    ∧ (true = false → ([] : List Effect) = [] ∧
        ([] : List MatchRecord) = []) :=
  C2_amended_sites_considered "lte" true (fun _ => none) (fun _ => true)
    (fun _ => []) [⟨"s1", "HubSite", "HUB"⟩] [] [] (by decide) "s1"

/-- C3: the derived BWM state is a total deterministic function of
`bw_config_mode` (`"manual"` to `"On"`, `"manual_bwm_disabled"` to `"Off"`,
anything else to `"unknown"`); under `bwm = on` a non-unknown state yields
payload `bw_config_mode = "manual"`; under `bwm = off` a non-unknown state
yields `"manual_bwm_disabled"` (in particular `"manual"` with `bwm = off`
ends at `"manual_bwm_disabled"`); an unknown state is never mutated. -/
theorem C3_bwm_state_spec (d : Interface) (b l : String) :
    bwmStateOf "manual" = "On"
    ∧ bwmStateOf "manual_bwm_disabled" = "Off"
    ∧ (∀ v, v ≠ "manual" → v ≠ "manual_bwm_disabled" →
        bwmStateOf v = "unknown")
    ∧ (bwmStateOf d.bw_config_mode ≠ "unknown" →
        (patchData b l "on" d).bw_config_mode = "manual")
    ∧ (bwmStateOf d.bw_config_mode ≠ "unknown" →
        (patchData b l "off" d).bw_config_mode = "manual_bwm_disabled")
    ∧ (d.bw_config_mode = "manual" →
        (patchData b l "off" d).bw_config_mode = "manual_bwm_disabled")
    ∧ (bwmStateOf d.bw_config_mode = "unknown" →
        (patchData b l "on" d).bw_config_mode = d.bw_config_mode ∧
          (patchData b l "off" d).bw_config_mode = d.bw_config_mode) := by
  refine ⟨by simp [bwmStateOf], by simp [bwmStateOf], ?_, ?_, ?_, ?_, ?_⟩
  · intro v h1 h2
    simp [bwmStateOf, h1, h2]
  · intro h
    rw [patchData_bw_eq]
    simp [h]
  · intro h
    rw [patchData_bw_eq]
    simp [h]
  · intro h
    rw [patchData_bw_eq]
    simp [bwmStateOf, h]
  · intro h
    rw [patchData_bw_eq, patchData_bw_eq]
    simp [h]

/-- Witness for C3 at a concrete interface whose `bw_config_mode` is
`"manual"` (state `"On"`, not unknown): `bwm = off` flips it to
`"manual_bwm_disabled"`. -/
theorem C3_bwm_state_spec_witness :
    (patchData "aggressive" "nochange" "off"
      ⟨"wi1", "LTE-Primary", "L1", "non_aggressive", "true", "manual"⟩).bw_config_mode
      = "manual_bwm_disabled" :=
  (C3_bwm_state_spec
    ⟨"wi1", "LTE-Primary", "L1", "non_aggressive", "true", "manual"⟩
    "aggressive" "nochange").2.2.2.2.2.1 (by decide)

/-- C4 evaluation at the failing input: a matched interface whose
`bw_config_mode` is `"unknown_mode"` under a requested `bwm = off` is left
untouched but produces no log line at all (the skip is silent), while the
same interface under `bwm = on` does produce the "Ignoring" note.  The
guard on src line 220 (`change_bwm == "off" and current_bwm_state !=
"unknown"`) makes the "Ignoring" print on lines 221-222 unreachable. -/
theorem C4_bwm_off_unknown_is_silent :
    (patchData "aggressive" "nochange" "off"
      ⟨"wi1", "LTE-Primary", "L1", "non_aggressive", "true", "unknown_mode"⟩).bw_config_mode
      = "unknown_mode"
    ∧ patchLogs "aggressive" "nochange" "off"
      ⟨"wi1", "LTE-Primary", "L1", "non_aggressive", "true", "unknown_mode"⟩
      = []
    ∧ patchLogs "aggressive" "nochange" "on"
      ⟨"wi1", "LTE-Primary", "L1", "non_aggressive", "true", "unknown_mode"⟩
      = [Effect.ignoreBwmLog "unknown_mode"] := by
  decide

/-- C9: the per-interface patch computation is idempotent — applying it to
its own output changes nothing further, for every payload and every
requested combination (in fact for arbitrary request strings). -/
theorem C9_patch_idempotent (b l w : String) (d : Interface) :
    patchData b l w (patchData b l w d) = patchData b l w d := by
  refine interface_eq_of_fields _ _ ?_ ?_ ?_ ?_ ?_ ?_
  · rw [(patchData_other_eq b l w (patchData b l w d)).1]
  · rw [(patchData_other_eq b l w (patchData b l w d)).2.1]
  · rw [(patchData_other_eq b l w (patchData b l w d)).2.2]
  · rw [patchData_bfd_eq, patchData_bfd_eq]
  · rw [patchData_lqm_eq, patchData_lqm_eq]
    split_ifs <;> rfl
  · rw [patchData_bw_eq, patchData_bw_eq b l w d]
    split_ifs with h1 h2 h3 <;> simp_all [bwmStateOf]

/-- C10: the label display during discovery is not total in `label_id`: a
reachable concrete input — a matched interface whose `label_id` (`"L9"`) is
absent from the fetched label dictionary — makes the run fail with the
uncaught lookup error for exactly that key. -/
theorem C10_missing_label_lookup_fails :
    string_match "LTE-Primary" "lte" = true
    ∧ buildLabelDict [⟨"L1", "nm", "lb", "ds"⟩] "L9" = none
    ∧ goEffects "aggressive" "lte" "nochange" "nochange" true
      { tenantOk := true, tenantName := "T", labelsOk := true,
        labelItems := [⟨"L1", "nm", "lb", "ds"⟩], sitesOk := true,
        siteItems := [⟨"s1", "SiteOne", "SPOKE"⟩],
        wanOk := fun _ => true,
        wanItems := fun _ =>
          [⟨"wi1", "LTE-Primary", "L9", "aggressive", "true", "manual"⟩],
        confirm := true, putOk := fun _ => true }
      = Except.error "L9" := by
  refine ⟨by decide, by decide, by decide⟩

/-- C5: if the user declines the confirmation prompt (and discovery itself
completed: tenant and site calls succeeded, no label lookup error), then no
replace-wan-interface PUT occurs anywhere in the run's effect trace, the
distinct "CHANGES ABORTED!" message is printed, and the trace still ends
with the final `logout` of `__main__`. -/
theorem C5_decline_aborts (b mt l w : String) (excl : Bool) (env : Env)
    (es : List Effect)
    (hT : env.tenantOk = true) (hS : env.sitesOk = true)
    (hC : env.confirm = false)
    (h : runAfterAuth b mt l w excl env = Except.ok es) :
    (∀ e ∈ es, isPut e = false) ∧ Effect.printAborted ∈ es ∧
      es.getLast? = some Effect.logoutEff := by
  cases hd : discoverSites mt excl
      (if env.labelsOk then buildLabelDict env.labelItems else fun _ => none)
      env.wanOk env.wanItems env.siteItems with
  | error e2 =>
    have hgo : goEffects b mt l w excl env = Except.error e2 := by
      simp only [goEffects, hd, if_pos hT, if_pos hS]
    simp only [runAfterAuth, hgo] at h
    exact Except.noConfusion h
  | ok p =>
    obtain ⟨des, matched⟩ := p
    have hgo : goEffects b mt l w excl env =
        Except.ok
          ([Effect.getTenants, Effect.printTenant env.tenantName,
              Effect.getLabels] ++ [Effect.getSites] ++ des ++
            [Effect.promptConfirm
                ("This will change all circuits found above to a BFD Mode of "
                  ++ b ++ addendedPrompt l w ++ " are you sure"),
              Effect.printAborted], RunExit.normal) := by
      simp only [goEffects, hd, if_pos hT, if_pos hS]
      rw [if_neg]
      intro hcc
      rw [hC] at hcc
      exact Bool.false_ne_true hcc
    simp only [runAfterAuth, hgo, Except.ok.injEq] at h
    subst h
    refine ⟨?_, ?_, ?_⟩
    · intro e he
      rcases List.mem_append.mp he with h1 | h2
      · rcases List.mem_append.mp h1 with h3 | h4
        · rcases List.mem_append.mp h3 with h5 | h6
          · rcases List.mem_append.mp h5 with h7 | h8
            · simp only [List.mem_cons, List.not_mem_nil, or_false] at h7
              rcases h7 with rfl | rfl | rfl <;> rfl
            · simp only [List.mem_cons, List.not_mem_nil, or_false] at h8
              rw [h8]
              rfl
          · exact discoverSites_no_put mt excl
              (if env.labelsOk then buildLabelDict env.labelItems
                else fun _ => none)
              env.wanOk env.wanItems env.siteItems des matched hd e h6
        · simp only [List.mem_cons, List.not_mem_nil, or_false] at h4
          rcases h4 with rfl | rfl <;> rfl
      · simp only [List.mem_cons, List.not_mem_nil, or_false] at h2
        rw [h2]
        rfl
    · refine List.mem_append.mpr (Or.inl (List.mem_append.mpr (Or.inr ?_)))
      simp
    · rw [List.getLast?_append_cons]
      rfl

/-- Witness for C5 at a concrete declining run (empty site list): the abort
message is printed and the trace ends with the logout. -/
theorem C5_decline_aborts_witness :
    Effect.printAborted ∈
      ([Effect.getTenants, Effect.printTenant "T", Effect.getLabels,
        Effect.getSites,
        Effect.promptConfirm
          "This will change all circuits found above to a BFD Mode of aggressive are you sure",
        Effect.printAborted, Effect.logoutEff] : List Effect)
    ∧ ([Effect.getTenants, Effect.printTenant "T", Effect.getLabels,
        Effect.getSites,
        Effect.promptConfirm
          "This will change all circuits found above to a BFD Mode of aggressive are you sure",
        Effect.printAborted, Effect.logoutEff] : List Effect).getLast?
      = some Effect.logoutEff :=
  (C5_decline_aborts "aggressive" "lte" "nochange" "nochange" true
    ⟨true, "T", true, [], true, [], fun _ => true, fun _ => [], false,
      fun _ => true⟩
    [Effect.getTenants, Effect.printTenant "T", Effect.getLabels,
      Effect.getSites,
      Effect.promptConfirm
        "This will change all circuits found above to a BFD Mode of aggressive are you sure",
      Effect.printAborted, Effect.logoutEff]
    rfl rfl rfl (by decide)).2

/-- C7 counterexample: with no CLI token, no token file and `X_AUTH_TOKEN`
present in the environment but EMPTY, the env-X source is selected and
consulted (its "Authenticating using environment variable X_AUTH_TOKEN"
message is printed), yet interactive login — a later source — is still
attempted, because `if CLOUDGENIX_AUTH_TOKEN:` (src 115) is false for the
empty token.  This refutes "once an earlier source is present, no later
source is ever consulted or attempted". -/
theorem C7_cex_empty_env_token :
    Effect.authMsgEnvX ∈
      (authenticate none none (fun _ => "") (some "") none (fun _ => true)
        [true]).1
    ∧ Effect.interactiveLoginEff ∈
      (authenticate none none (fun _ => "") (some "") none (fun _ => true)
        [true]).1 := by
  decide

/-- C7 amended: the source is selected in strict priority order, where the
CLI token and the token-file argument count as present when non-empty
(Python truthiness) and an environment variable counts as present when set
(even if empty); no later source is ever selected once an earlier one is
present.  If the selected source yields a truthy token, exactly that one
source is used: `use_token` is called with it and interactive login is never
attempted; only when the resolved token is falsy (no source present, or the
selected env var / stripped token file was empty) is interactive login
attempted, and then `use_token` is never called. -/
theorem C7_amended_auth_priority (cliToken authtokenfile : Option String)
    (fileContents : String → String) (envX envA : Option String)
    (tokenValid : String → Bool) (loginResults : List Bool) :
    (pyTruthy cliToken = true →
      resolveAuthToken cliToken authtokenfile fileContents envX envA
        = (cliToken, [Effect.authMsgCli]))
    ∧ (pyTruthy cliToken = false → pyTruthy authtokenfile = true →
      resolveAuthToken cliToken authtokenfile fileContents envX envA
        = (some ((fileContents (authtokenfile.getD "")).trim),
            [Effect.readTokenFile (authtokenfile.getD ""),
              Effect.authMsgFile (authtokenfile.getD "")]))
    ∧ (pyTruthy cliToken = false → pyTruthy authtokenfile = false →
        envX.isSome = true →
      resolveAuthToken cliToken authtokenfile fileContents envX envA
        = (envX, [Effect.authMsgEnvX]))
    ∧ (pyTruthy cliToken = false → pyTruthy authtokenfile = false →
        envX = none → envA.isSome = true →
      resolveAuthToken cliToken authtokenfile fileContents envX envA
        = (envA, [Effect.authMsgEnvA]))
    ∧ (pyTruthy cliToken = false → pyTruthy authtokenfile = false →
        envX = none → envA = none →
      resolveAuthToken cliToken authtokenfile fileContents envX envA
        = (none, [Effect.authMsgInteractive]))
    ∧ (pyTruthy
        (resolveAuthToken cliToken authtokenfile fileContents envX envA).1
          = true →
      Effect.useTokenEff
          ((resolveAuthToken cliToken authtokenfile fileContents envX
            envA).1.getD "")
        ∈ (authenticate cliToken authtokenfile fileContents envX envA
            tokenValid loginResults).1
      ∧ Effect.interactiveLoginEff
        ∉ (authenticate cliToken authtokenfile fileContents envX envA
            tokenValid loginResults).1)
    ∧ (pyTruthy
        (resolveAuthToken cliToken authtokenfile fileContents envX envA).1
          = false →
      ∀ t, Effect.useTokenEff t
        ∉ (authenticate cliToken authtokenfile fileContents envX envA
            tokenValid loginResults).1) := by
  refine ⟨?_, ?_, ?_, ?_, ?_, ?_, ?_⟩
  · intro h1
    rw [resolveAuthToken, if_pos h1]
  · intro h1 h2
    rw [resolveAuthToken, if_neg (by rw [h1]; exact Bool.false_ne_true),
      if_pos h2]
  · intro h1 h2 h3
    rw [resolveAuthToken, if_neg (by rw [h1]; exact Bool.false_ne_true),
      if_neg (by rw [h2]; exact Bool.false_ne_true), if_pos h3]
  · intro h1 h2 h3 h4
    rw [resolveAuthToken, if_neg (by rw [h1]; exact Bool.false_ne_true),
      if_neg (by rw [h2]; exact Bool.false_ne_true),
      if_neg (by rw [h3]; exact Bool.false_ne_true), if_pos h4]
  · intro h1 h2 h3 h4
    rw [resolveAuthToken, if_neg (by rw [h1]; exact Bool.false_ne_true),
      if_neg (by rw [h2]; exact Bool.false_ne_true),
      if_neg (by rw [h3]; exact Bool.false_ne_true),
      if_neg (by rw [h4]; exact Bool.false_ne_true)]
  · intro h1
    constructor
    · simp only [authenticate]
      rw [if_pos h1]
      cases hv : tokenValid
          ((resolveAuthToken cliToken authtokenfile fileContents envX
            envA).1.getD "") <;>
        simp [hv]
    · intro hmem
      simp only [authenticate] at hmem
      rw [if_pos h1] at hmem
      have hne := resolveAuthToken_effects cliToken authtokenfile
        fileContents envX envA Effect.interactiveLoginEff
      cases hv : tokenValid
          ((resolveAuthToken cliToken authtokenfile fileContents envX
            envA).1.getD "") <;>
        rw [hv] at hmem <;>
        simp only [Bool.false_eq_true, if_false, if_true] at hmem <;>
        rcases List.mem_append.mp hmem with hx | hx
      · exact (hne hx).2.1 rfl
      · simp at hx
      · exact (hne hx).2.1 rfl
      · simp at hx
  · intro h1 t hmem
    simp only [authenticate] at hmem
    rw [if_neg (by rw [h1]; exact Bool.false_ne_true)] at hmem
    have hne := resolveAuthToken_effects cliToken authtokenfile
      fileContents envX envA (Effect.useTokenEff t)
    cases hp : (interactiveLoop loginResults).2 <;>
      rw [hp] at hmem <;>
      simp only [Bool.false_eq_true, if_false, if_true] at hmem
    · rcases List.mem_append.mp hmem with hx | hx
      · exact (hne hx).1 t rfl
      · have := interactiveLoop_effects loginResults _ hx
        exact Effect.noConfusion this
    · rcases List.mem_append.mp hmem with hx | hx
      · rcases List.mem_append.mp hx with hy | hy
        · exact (hne hy).1 t rfl
        · have := interactiveLoop_effects loginResults _ hy
          exact Effect.noConfusion this
      · simp at hx

/-- Witness for C7 (amended) at a concrete input: a truthy CLI token means
interactive login is never attempted. -/
theorem C7_amended_auth_priority_witness :
    Effect.interactiveLoginEff ∉
      (authenticate (some "MYTOKEN") none (fun _ => "") none none
        (fun _ => true) []).1 :=
  ((C7_amended_auth_priority (some "MYTOKEN") none (fun _ => "") none none
    (fun _ => true) []).2.2.2.2.2.1 (by decide)).2

/-- C8 counterexample: with a token present (CLI token `"badtoken"`) and the
single authentication attempt failing, the process terminates via
`sys.exit()` with NO argument (src 119), i.e. with exit status 0 — not the
non-zero exit code the claim states. -/
theorem C8_cex_auth_fail_exits_zero :
    (authenticate (some "badtoken") none (fun _ => "") none none
      (fun _ => false) []).2 = AuthOutcome.exited 0 := by
  decide

/-- C8 amended: when a token is present (the resolved token is truthy) and
the single authentication attempt fails, the process terminates immediately
with exit status ZERO (src 119 calls `sys.exit()` without an argument), and
discovery is never attempted (no tenants call appears in the trace). -/
theorem C8_amended_auth_fail_exits (cliToken authtokenfile : Option String)
    (fileContents : String → String) (envX envA : Option String)
    (tokenValid : String → Bool) (loginResults : List Bool)
    (bfdmode match_text change_lqm change_bwm : String) (excl : Bool)
    (env : Env)
    (h1 : pyTruthy
      (resolveAuthToken cliToken authtokenfile fileContents envX envA).1
        = true)
    (h2 : tokenValid
      ((resolveAuthToken cliToken authtokenfile fileContents envX
        envA).1.getD "") = false) :
    mainRun cliToken authtokenfile fileContents envX envA tokenValid
      loginResults bfdmode match_text change_lqm change_bwm excl env
      = Except.ok
          ((authenticate cliToken authtokenfile fileContents envX envA
            tokenValid loginResults).1, MainOutcome.authExit 0)
    ∧ Effect.getTenants ∉
      (authenticate cliToken authtokenfile fileContents envX envA
        tokenValid loginResults).1 := by
  have ha : authenticate cliToken authtokenfile fileContents envX envA
      tokenValid loginResults
      = ((resolveAuthToken cliToken authtokenfile fileContents envX
          envA).2 ++
          [Effect.useTokenEff
            ((resolveAuthToken cliToken authtokenfile fileContents envX
              envA).1.getD ""),
            Effect.authFailMsg], AuthOutcome.exited 0) := by
    simp only [authenticate]
    rw [if_pos h1, h2]
    simp
  constructor
  · simp only [mainRun, ha]
  · intro hmem
    rw [ha] at hmem
    rcases List.mem_append.mp hmem with hx | hx
    · exact (resolveAuthToken_effects cliToken authtokenfile fileContents
        envX envA Effect.getTenants hx).2.2 rfl
    · simp at hx

/-- Witness for C8 (amended) at a concrete input: a bad CLI token makes the
whole run stop right after authentication with exit status 0. -/
theorem C8_amended_auth_fail_exits_witness :
    mainRun (some "badtoken") none (fun _ => "") none none (fun _ => false)
      [] "aggressive" "lte" "nochange" "nochange" true
      ⟨true, "T", true, [], true, [], fun _ => true, fun _ => [], true,
        fun _ => true⟩
      = Except.ok
          ((authenticate (some "badtoken") none (fun _ => "") none none
            (fun _ => false) []).1, MainOutcome.authExit 0)
    ∧ Effect.getTenants ∉
      (authenticate (some "badtoken") none (fun _ => "") none none
        (fun _ => false) []).1 :=
  C8_amended_auth_fail_exits (some "badtoken") none (fun _ => "") none none
    (fun _ => false) [] "aggressive" "lte" "nochange" "nochange" true
    ⟨true, "T", true, [], true, [], fun _ => true, fun _ => [], true,
      fun _ => true⟩
    (by decide) (by decide)

/-- C6: during mutation, every matched interface gets exactly one
replace-wan-interface call, in accumulation order, independent of the
per-item PUT outcomes (so a failure never blocks, skips, retries or rolls
back any other submission), and every submission's outcome is reported
individually right from its own PUT result. -/
theorem C6_mutation_best_effort (b l w : String) (putOk : String → Bool)
    (ms : List MatchRecord) :
    (mutatePhase b l w putOk ms).filter isPut
      = ms.map (fun r =>
          Effect.putWanInterface r.site_id r.interface_id
            (patchData b l w r.data))
    ∧ (mutatePhase b l w putOk ms).filter isReport
      = ms.map (fun r =>
          if putOk r.interface_id then Effect.putSuccessMsg b
          else Effect.putFailedMsg) := by
  induction ms with
  | nil => exact ⟨rfl, rfl⟩
  | cons r rest ih =>
    have hp : isPut (if putOk r.interface_id then Effect.putSuccessMsg b
        else Effect.putFailedMsg) = false := by
      split_ifs <;> rfl
    have hr : isReport (if putOk r.interface_id then Effect.putSuccessMsg b
        else Effect.putFailedMsg) = true := by
      split_ifs <;> rfl
    constructor
    · simp [mutatePhase, mutateOne, List.filter_append, List.filter_cons,
        isPut, hp, patchLogs_filter_put, ih.1]
      split_ifs <;> rfl
    · simp [mutatePhase, mutateOne, List.filter_append, List.filter_cons,
        isReport, hr, patchLogs_filter_report, ih.2]
      split_ifs <;> rfl

end CG
